import Mathlib

/-!
Verification of the mcp-code-sandbox session manager against its specification.

The Python sources are shallowly embedded: pure helpers become Lean functions,
the SessionManager registry state becomes an explicit state record threaded
through each operation, and the container engine is modelled as a per-container
file map plus an explicit trace of engine calls.  Python `str` values carrying
process output are modelled as byte lists (`List Nat`); machine integers are
`Nat`/`Int`.  Nondeterministic inputs of the environment (generated ids, the
guest exit code and streams, directory snapshots) are passed as parameters.
-/

namespace CodeSandbox

/-! ## Configuration (config.py, SandboxConfig defaults) -/

structure SandboxConfig where
  exec_timeout_s : Nat := 60
  session_ttl_m : Nat := 30
  max_sessions : Nat := 10
  cleanup_interval_m : Nat := 5
  max_upload_bytes : Nat := 50 * 1024 * 1024
  max_artifact_read_bytes : Nat := 10 * 1024 * 1024
  max_output_bytes : Nat := 100 * 1024
  max_code_bytes : Nat := 100 * 1024
  image : String := "llm-sandbox:latest"
  http_host : String := "127.0.0.1"
  http_port : Nat := 8080
deriving DecidableEq

/-- Default configuration, as produced by SandboxConfig() with no env overrides. -/
def defaultConfig : SandboxConfig := {}

/-! ## Response models (models.py) -/

structure ErrorResponse where
  error : String
  message : String
  size_bytes : Option Nat := none
deriving DecidableEq

structure ArtifactInfo where
  path : String
  filename : String
  size_bytes : Nat
  mime_type : String
  download_url : Option String := none
deriving DecidableEq

structure UploadResult where
  session_id : String
  path : String
deriving DecidableEq

/-- RunResult from models.py.  The stdout and stderr strings are modelled at the
byte level: the Python code decodes the truncated byte streams with
errors=replace and the claims in scope are about byte counts, so the model
keeps the bytes (the timed-out note appended by the code is pure ASCII, where
decoding and re-encoding are the identity). -/
structure RunResult where
  session_id : String
  run_id : String
  exit_code : Int
  stdout : List Nat
  stderr : List Nat
  stdout_truncated : Bool := false
  stderr_truncated : Bool := false
  artifacts : List ArtifactInfo := []
  duration_ms : Nat
deriving DecidableEq

structure ReadArtifactResult where
  path : String
  filename : String
  mime_type : String
  size_bytes : Nat
  content_base64 : String
deriving DecidableEq

structure ListArtifactsResult where
  artifacts : List ArtifactInfo := []
deriving DecidableEq

structure CloseSessionResult where
  status : String
deriving DecidableEq

/-! ## Base64 (Python base64 module, used by session.py and server.py)

The alphabet-indexed codec below models Python base64.b64encode and
b64decode(validate=False): encoding emits 4 characters per 3-byte group with
padding, decoding first discards characters outside the alphabet and then
consumes the data characters; b64decode raises binascii.Error (surfaced as
invalid_content by upload) exactly when the kept characters, pad characters
included, do not fill whole 4-character groups. -/

def b64Chars : List Char :=
  "ABCDEFGHIJKLMNOPQRSTUVWXYZabcdefghijklmnopqrstuvwxyz0123456789+/".data

def b64CharVal (c : Char) : Option Nat :=
  b64Chars.findIdx? (fun d => d == c)

def b64Digit (i : Nat) : Char :=
  b64Chars.getD i 'A'

def b64Encode : List Nat → String
  | [] => ""
  | [b1] =>
      String.mk [b64Digit (b1 / 4 % 64), b64Digit (b1 % 4 * 16), '=', '=']
  | [b1, b2] =>
      String.mk [b64Digit (b1 / 4 % 64), b64Digit ((b1 % 4 * 16 + b2 / 16) % 64),
                 b64Digit (b2 % 16 * 4), '=']
  | b1 :: b2 :: b3 :: rest =>
      String.mk [b64Digit (b1 / 4 % 64), b64Digit ((b1 % 4 * 16 + b2 / 16) % 64),
                 b64Digit ((b2 % 16 * 4 + b3 / 64) % 64), b64Digit (b3 % 64)]
        ++ b64Encode rest

def b64SextVal (c : Char) : Nat :=
  (b64CharVal c).getD 0

def b64DecodeQuads : List Char → List Nat
  | c1 :: c2 :: c3 :: c4 :: rest =>
      (b64SextVal c1 * 4 + b64SextVal c2 / 16) % 256
        :: (b64SextVal c2 * 16 + b64SextVal c3 / 4) % 256
        :: (b64SextVal c3 * 64 + b64SextVal c4) % 256
        :: b64DecodeQuads rest
  | [c1, c2] => [(b64SextVal c1 * 4 + b64SextVal c2 / 16) % 256]
  | [c1, c2, c3] =>
      [(b64SextVal c1 * 4 + b64SextVal c2 / 16) % 256,
       (b64SextVal c2 * 16 + b64SextVal c3 / 4) % 256]
  | _ => []

/-- Decoded bytes of a base64 payload (pad and foreign characters discarded). -/
def b64DecodeBytes (s : String) : List Nat :=
  b64DecodeQuads (s.data.filter fun c => (b64CharVal c).isSome)

/-- Whether Python b64decode(validate=False) accepts the payload: after
discarding foreign characters, the kept characters (pads included) must fill
whole 4-character groups. -/
def b64Valid (s : String) : Bool :=
  (s.data.filter fun c => (b64CharVal c).isSome || c == '=').length % 4 == 0

/-- Length of the base64 encoding of n bytes: four characters per started
3-byte group, padding included. -/
def b64EncLen (n : Nat) : Nat := 4 * ((n + 2) / 3)

/-! ## Input validation (validation.py) -/

/-- Character class of the session-id regex [a-zA-Z0-9_-]. -/
def isSessionIdChar (c : Char) : Bool :=
  c.isAlpha || c.isDigit || c == '_' || c == '-'

/-- Match the anchored regex of _SESSION_ID_RE: 1 to 64 characters of the
class.  (Python re.match with a final anchor also admits one trailing newline;
no claim in scope exercises that corner.) -/
def sessionIdMatches (s : String) : Bool :=
  1 ≤ s.length && s.length ≤ 64 && s.data.all isSessionIdChar

def validate_session_id (session_id : Option String) : Option ErrorResponse :=
  match session_id with
  | none => none
  | some sid =>
      if sessionIdMatches sid then none
      else some { error := "invalid_session_id",
                  message := "Invalid session_id " ++ sid ++
                    ". Must be 1-64 characters: letters, numbers, hyphens, underscores." }

/-- The ErrorResponse produced by validate_upload_size when it rejects. -/
def upload_too_large_error (max_upload_bytes : Nat) : ErrorResponse :=
  { error := "upload_too_large",
    message := "Upload exceeds " ++
      toString (max_upload_bytes / (1024 * 1024)) ++ "MB limit." }

def validate_upload_size (content_base64 : String) (config : SandboxConfig) :
    Option ErrorResponse :=
  -- Python computes int(max_upload_bytes * 4 / 3) + 4 with float division;
  -- for every magnitude this program can reach (below 2 to the 51st) the
  -- truncated float equals the rational floor modelled by Nat division.
  let max_b64_len := config.max_upload_bytes * 4 / 3 + 4
  if content_base64.length > max_b64_len then
    some (upload_too_large_error config.max_upload_bytes)
  else none

/-! ## Filename and path validation (session.py) -/

/-- Character class of _FILENAME_RE, regex class [a-zA-Z0-9._-]. -/
def isFilenameChar (c : Char) : Bool :=
  c.isAlpha || c.isDigit || c == '.' || c == '_' || c == '-'

/-- Match the anchored regex of _FILENAME_RE: 1 to 255 characters of the class. -/
def filenameMatches (s : String) : Bool :=
  1 ≤ s.length && s.length ≤ 255 && s.data.all isFilenameChar

/-- Whether the character list contains two consecutive dots. -/
def hasDotDotChars : List Char → Bool
  | '.' :: '.' :: _ => true
  | _ :: rest => hasDotDotChars rest
  | [] => false

/-- Whether the string contains ".." as a substring. -/
def hasDotDot (s : String) : Bool :=
  hasDotDotChars s.data

def _validate_filename (filename : String) : Option ErrorResponse :=
  if !filenameMatches filename then
    some { error := "invalid_filename",
           message := "Invalid filename " ++ filename ++
             ". Only letters, numbers, dots, hyphens, and underscores allowed." }
  else if hasDotDot filename then
    some { error := "invalid_path", message := "Path traversal not allowed" }
  else none

/-- Character-level splitting on a separator, as Python str.split with a
one-character separator. -/
def splitOnChar (sep : Char) : List Char → List (List Char)
  | [] => [[]]
  | c :: rest =>
    if c == sep then [] :: splitOnChar sep rest
    else match splitOnChar sep rest with
      | [] => [[c]]
      | g :: gs => (c :: g) :: gs

/-- Final component of a POSIX path, as PurePosixPath(p).name: split on
slashes, drop empty and single-dot components, take the last (empty when none
remains).  A ".." component is kept, as in pathlib. -/
def posixPathName (p : String) : String :=
  let comps := (splitOnChar '/' p.data).filter fun g => !(g == []) && !(g == ['.'])
  match comps.getLast? with
  | some g => String.mk g
  | none => ""

/-- Join a (slash-free) name under /mnt/data, as PurePosixPath joinpath: an
empty name is dropped, leaving /mnt/data itself. -/
def joinUnderData (name : String) : String :=
  if name == "" then "/mnt/data" else "/mnt/data/" ++ name

/-- Prefix test on strings via their character lists (String.startsWith). -/
def strHasPre (pre s : String) : Bool :=
  pre.data.isPrefixOf s.data

def _validate_path (path : String) : Option ErrorResponse :=
  let resolved := joinUnderData (posixPathName path)
  if strHasPre "/mnt/data/" resolved then none
  else some { error := "invalid_path", message := "Path outside /mnt/data/" }

/-! ## Media type resolution

Modelled from the spec: media-type resolution is "by filename extension via a
standard table; unknown extensions yield application/octet-stream".  The table
is Python mimetypes (standard library, outside this repository); representative
entries suffice since no claim in scope inspects a specific media type. -/

def mimeTable : List (String × String) :=
  [(".txt", "text/plain"), (".csv", "text/csv"), (".json", "application/json"),
   (".png", "image/png"), (".pdf", "application/pdf"), (".html", "text/html"),
   (".bin", "application/octet-stream")]

/-- Extension of a filename, final dot-separated component with its dot (empty
when the name has no dot; names consisting of a single leading dot are not
exercised by any claim). -/
def fileExt (name : String) : String :=
  let parts := splitOnChar '.' name.data
  if parts.length ≤ 1 then ""
  else "." ++ String.mk (parts.getLast?.getD [])

/-- Lookup of mimetypes.guess_type by extension. -/
def guess_type (name : String) : Option String :=
  List.lookup (fileExt name) mimeTable

/-! ## Session registry state (SessionManager fields and the engine)

The SessionManager holds three parallel maps keyed by session id: container
handle, last-access monotonic time, and per-session mutex.  The container
engine is modelled by a per-container file map (absolute path to file bytes)
plus the list of force-removed containers; engine round-trips performed by
upload are recorded in an explicit call trace.  A mutex is modelled by the
Bool recording whether it is currently held by an in-flight execute. -/

structure FileInfo where
  name : String
  size : Nat
  mtime : String
deriving DecidableEq

/-- Snapshot of /mnt/data as produced by _snapshot_files: filename to
(name, size, mtime) where mtime is the raw string printed by find. -/
abbrev Snapshot := List (String × FileInfo)

structure SMState where
  sessions : List (String × String)
  last_accessed : List (String × Nat)
  locks : List (String × Bool)
  engine_files : List (String × List (String × List Nat))
  removed : List String
deriving DecidableEq

/-- Update or insert a key in an association map. -/
def assocSet {α : Type} (m : List (String × α)) (k : String) (v : α) :
    List (String × α) :=
  (k, v) :: m.filter fun p => !(p.1 == k)

/-- Remove a key from an association map. -/
def assocErase {α : Type} (m : List (String × α)) (k : String) :
    List (String × α) :=
  m.filter fun p => !(p.1 == k)

/-- Engine round-trips issued by upload, in order. -/
inductive EngineCall where
  | createContainer (session_id : String)
  | probeExists (container_id : String) (filename : String)
  | putArchive (container_id : String) (filename : String)
deriving DecidableEq

/-! ## SessionManager.get_or_create -/

/-- Resolution of the session id, Python sid = session_id or generate():
a missing or empty id falls back to the freshly generated one. -/
def resolveSid (session_id : Option String) (fresh_sid : String) : String :=
  match session_id with
  | none => fresh_sid
  | some s => if s == "" then fresh_sid else s

/-- The get_or_create operation.  now is the current monotonic time;
fresh_sid stands for the generated sess_ id used when the caller passes no id.
Returns the (session id, container handle) pair or the max_sessions error, the
updated state, and the engine calls made. -/
def get_or_create (config : SandboxConfig) (st : SMState) (now : Nat)
    (session_id : Option String) (fresh_sid : String) :
    (String × String ⊕ ErrorResponse) × SMState × List EngineCall :=
  let sid := resolveSid session_id fresh_sid
  match List.lookup sid st.sessions with
  | some cid =>
      (Sum.inl (sid, cid),
       { st with last_accessed := assocSet st.last_accessed sid now }, [])
  | none =>
      if st.sessions.length ≥ config.max_sessions then
        (Sum.inr { error := "max_sessions",
                   message := "Maximum " ++ toString config.max_sessions ++
                     " concurrent sessions reached. Close an existing session first." },
         st, [])
      else
        let cid := "sandbox-" ++ sid
        (Sum.inl (sid, cid),
         { st with
             sessions := assocSet st.sessions sid cid,
             last_accessed := assocSet st.last_accessed sid now,
             locks := assocSet st.locks sid false,
             engine_files := assocSet st.engine_files cid [] },
         [EngineCall.createContainer sid])

/-! ## SessionManager.upload -/

/-- The upload operation: validate the filename, resolve the session, probe
existence via an exec unless overwrite, decode the base64 content, then build
a single-file tar and inject it at /mnt/data.  The tar build and injection are
collapsed into writing the decoded bytes into the container file map. -/
def upload (config : SandboxConfig) (st : SMState) (now : Nat)
    (session_id : Option String) (fresh_sid : String)
    (filename content_base64 : String) (overwrite : Bool) :
    (UploadResult ⊕ ErrorResponse) × SMState × List EngineCall :=
  match _validate_filename filename with
  | some err => (Sum.inr err, st, [])
  | none =>
    match get_or_create config st now session_id fresh_sid with
    | (Sum.inr err, st1, calls) => (Sum.inr err, st1, calls)
    | (Sum.inl (sid, cid), st1, calls) =>
      let fs := (List.lookup cid st1.engine_files).getD []
      let fileIsThere := (List.lookup ("/mnt/data/" ++ filename) fs).isSome
      let calls1 := if overwrite then calls
                    else calls ++ [EngineCall.probeExists cid filename]
      if !overwrite && fileIsThere then
        (Sum.inr { error := "file_exists",
                   message := filename ++
                     " already exists. Set overwrite=true to replace." },
         st1, calls1)
      else if !b64Valid content_base64 then
        (Sum.inr { error := "invalid_content",
                   message := "content_base64 is not valid base64" },
         st1, calls1)
      else
        let data := b64DecodeBytes content_base64
        let st2 := { st1 with
          engine_files := assocSet st1.engine_files cid
            (assocSet fs ("/mnt/data/" ++ filename) data) }
        (Sum.inl { session_id := sid, path := "/mnt/data/" ++ filename },
         st2, calls1 ++ [EngineCall.putArchive cid filename])

/-! ## Tool layer for upload (server.py sandbox_upload_file) -/

/-- The sandbox_upload_file tool: session-id and upload-size validation happen
in the tool layer before SessionManager.upload is invoked. -/
def sandbox_upload_file (config : SandboxConfig) (st : SMState) (now : Nat)
    (session_id : Option String) (fresh_sid : String)
    (filename content_base64 : String) (overwrite : Bool) :
    (UploadResult ⊕ ErrorResponse) × SMState × List EngineCall :=
  match validate_session_id session_id with
  | some err => (Sum.inr err, st, [])
  | none =>
    match validate_upload_size content_base64 config with
    | some err => (Sum.inr err, st, [])
    | none => upload config st now session_id fresh_sid filename content_base64 overwrite

/-! ## Artifact URLs and the snapshot diff (session.py) -/

/-- The _download_url helper: None while the HTTP artifact server is not
running; otherwise the route under the configured host and port, with the
hosts 0.0.0.0 and 127.0.0.1 rewritten to localhost. -/
def _download_url (config : SandboxConfig) (http_enabled : Bool)
    (session_id filename : String) : Option String :=
  if !http_enabled then none
  else
    let host := config.http_host
    let host := if host == "0.0.0.0" || host == "127.0.0.1" then "localhost" else host
    some ("http://" ++ host ++ ":" ++ toString config.http_port ++
          "/files/" ++ session_id ++ "/" ++ filename)

/-- ArtifactInfo decoration built for one data-directory entry, shared by the
snapshot diff and list_files. -/
def artifactOf (config : SandboxConfig) (http_enabled : Bool)
    (session_id name : String) (info : FileInfo) : ArtifactInfo :=
  { path := "/mnt/data/" ++ name,
    filename := name,
    size_bytes := info.size,
    mime_type := (guess_type name).getD "application/octet-stream",
    download_url := _download_url config http_enabled session_id name }

/-- Test of the _diff_snapshots loop for one after-entry: the file is reported
when its name is absent from the before-snapshot or its mtime string differs. -/
def changedSince (before : Snapshot) (name : String) (info : FileInfo) : Bool :=
  match List.lookup name before with
  | none => true
  | some b => b.mtime != info.mtime

/-- The _diff_snapshots computation: walk the after-snapshot and keep the
new-or-changed entries, decorated as artifacts. -/
def _diff_snapshots (config : SandboxConfig) (http_enabled : Bool)
    (before after : Snapshot) (session_id : String) : List ArtifactInfo :=
  after.filterMap fun p =>
    if changedSince before p.1 p.2 then
      some (artifactOf config http_enabled session_id p.1 p.2)
    else none

/-! ## SessionManager.execute -/

/-- Result of the engine exec of [timeout T python -c code] inside the
container: the raw exit code and the demultiplexed streams (None when a stream
produced nothing), supplied by the environment. -/
structure ExecRaw where
  exit_code : Int
  stdout : Option (List Nat)
  stderr : Option (List Nat)
deriving DecidableEq

/-- UTF-8 bytes of an ASCII string (each code point is one byte). -/
def asciiBytes (s : String) : List Nat :=
  s.data.map Char.toNat

/-- The note appended to stderr when the timeout wrapper killed the guest. -/
def timeoutNote (t : Nat) : List Nat :=
  asciiBytes ("\nExecution timed out after " ++ toString t ++ "s")

/-- The _execute_locked body after the engine exec returned: normalize the
124 exit of timeout(1) to -1, truncate each stream at max_output_bytes
recording the flags, append the timeout note to stderr when timed out, and
scan artifacts only on exit code 0 (diffing the before- and after-snapshots).
The snapshots, raw exec outcome and measured duration are parameters supplied
by the environment. -/
def _execute_locked (config : SandboxConfig) (http_enabled : Bool)
    (sid run_id : String) (before after : Snapshot) (raw : ExecRaw)
    (duration_ms : Nat) : RunResult :=
  let timed_out := raw.exit_code == 124
  let exit_code : Int := if timed_out then -1 else raw.exit_code
  let stdout_bytes := raw.stdout.getD []
  let stderr_bytes := raw.stderr.getD []
  let max_out := config.max_output_bytes
  let stdout_truncated := decide (stdout_bytes.length > max_out)
  let stderr_truncated := decide (stderr_bytes.length > max_out)
  let stdout_bytes := if stdout_truncated then stdout_bytes.take max_out else stdout_bytes
  let stderr_bytes := if stderr_truncated then stderr_bytes.take max_out else stderr_bytes
  let stderr_final :=
    if timed_out then stderr_bytes ++ timeoutNote config.exec_timeout_s else stderr_bytes
  let artifacts :=
    if exit_code == 0 then _diff_snapshots config http_enabled before after sid else []
  { session_id := sid,
    run_id := run_id,
    exit_code := exit_code,
    stdout := stdout_bytes,
    stderr := stderr_final,
    stdout_truncated := stdout_truncated,
    stderr_truncated := stderr_truncated,
    artifacts := artifacts,
    duration_ms := duration_ms }

/-- The execute operation: resolve the session (creating it if needed), then
attempt a non-blocking acquisition of the session mutex — rejecting with
session_busy when it is held — and run the code under the lock, releasing it
on return.  run_id, snapshots, exec outcome and duration are environment
parameters. -/
def execute (config : SandboxConfig) (http_enabled : Bool) (st : SMState)
    (now : Nat) (session_id : Option String) (fresh_sid run_id : String)
    (before after : Snapshot) (raw : ExecRaw) (duration_ms : Nat) :
    (RunResult ⊕ ErrorResponse) × SMState × List EngineCall :=
  match get_or_create config st now session_id fresh_sid with
  | (Sum.inr err, st1, calls) => (Sum.inr err, st1, calls)
  | (Sum.inl (sid, _cid), st1, calls) =>
    match List.lookup sid st1.locks with
    | some true =>
        (Sum.inr { error := "session_busy",
                   message := "Session " ++ sid ++
                     " is already executing code. Wait or use a different session." },
         st1, calls)
    | _ =>
        -- a missing lock entry is recreated unheld; acquisition succeeds and
        -- the lock is released before returning, so its net state is unheld
        (Sum.inl (_execute_locked config http_enabled sid run_id before after raw duration_ms),
         { st1 with locks := assocSet st1.locks sid false }, calls)

/-! ## SessionManager.list_files -/

/-- The list_files operation: require an existing session, refresh last-access,
snapshot the data directory (the snapshot is an environment parameter) and
decorate every entry. -/
def list_files (config : SandboxConfig) (http_enabled : Bool) (st : SMState)
    (now : Nat) (session_id : String) (snapshot : Snapshot) :
    (ListArtifactsResult ⊕ ErrorResponse) × SMState :=
  match List.lookup session_id st.sessions with
  | none =>
      (Sum.inr { error := "session_not_found",
                 message := "No active session with id " ++ session_id }, st)
  | some _cid =>
      let st1 := { st with last_accessed := assocSet st.last_accessed session_id now }
      (Sum.inl { artifacts :=
        snapshot.map fun p => artifactOf config http_enabled session_id p.1 p.2 }, st1)

/-! ## SessionManager.read_file -/

/-- The read_file operation: require an existing session, validate the path,
refresh last-access, pull a tar archive of the path as given (get_archive
raising NotFound becomes not_found), measure the extracted length against
max_artifact_read_bytes, and return the base64-encoded bytes.  The tar
round-trip is collapsed into the container file-map lookup of the path. -/
def read_file (config : SandboxConfig) (st : SMState) (now : Nat)
    (session_id path : String) :
    (ReadArtifactResult ⊕ ErrorResponse) × SMState :=
  match List.lookup session_id st.sessions with
  | none =>
      (Sum.inr { error := "session_not_found",
                 message := "No active session with id " ++ session_id }, st)
  | some cid =>
    match _validate_path path with
    | some err => (Sum.inr err, st)
    | none =>
      let st1 := { st with last_accessed := assocSet st.last_accessed session_id now }
      let filename := posixPathName path
      let fs := (List.lookup cid st.engine_files).getD []
      match List.lookup path fs with
      | none =>
          (Sum.inr { error := "not_found",
                     message := "No artifact at " ++ path }, st1)
      | some file_bytes =>
        let size := file_bytes.length
        if size > config.max_artifact_read_bytes then
          (Sum.inr { error := "artifact_too_large",
                     message := filename ++ " is " ++ toString (size / (1024 * 1024)) ++
                       "MB, exceeds " ++
                       toString (config.max_artifact_read_bytes / (1024 * 1024)) ++
                       "MB limit.",
                     size_bytes := some size }, st1)
        else
          (Sum.inl { path := path,
                     filename := filename,
                     mime_type := (guess_type filename).getD "application/octet-stream",
                     size_bytes := size,
                     content_base64 := b64Encode file_bytes }, st1)

/-! ## SessionManager.close -/

/-- The close operation: require an existing session, pop the entry from all
three registry maps, then force-remove the container with its volumes.  The
container removal succeeds in this model (the engine-failure branch maps the
exception and still considers the session gone; no claim exercises it). -/
def close (st : SMState) (session_id : String) :
    (CloseSessionResult ⊕ ErrorResponse) × SMState :=
  match List.lookup session_id st.sessions with
  | none =>
      (Sum.inr { error := "session_not_found",
                 message := "No active session with id " ++ session_id }, st)
  | some cid =>
      let st1 := { st with
        sessions := assocErase st.sessions session_id,
        last_accessed := assocErase st.last_accessed session_id,
        locks := assocErase st.locks session_id,
        engine_files := assocErase st.engine_files cid,
        removed := cid :: st.removed }
      (Sum.inl { status := "closed" }, st1)

/-! ## Reaper TTL tick (cleanup.py _expire_idle_sessions) -/

/-- One reaper tick: collect the sessions whose idle time exceeds ttl_s, then
call SessionManager.close on each (the result of close is ignored).  now is
the monotonic clock, never behind any recorded last-access time. -/
def _expire_idle_sessions (st : SMState) (now ttl_s : Nat) : SMState :=
  let expired := (st.last_accessed.filter fun p => decide (now - p.2 > ttl_s)).map Prod.fst
  expired.foldl (fun s sid => (close s sid).2) st

/-! ## HTTP artifact surface (http_server.py download_artifact) -/

structure HttpResponse where
  status_code : Nat
  body : List Nat
  media_type : Option String := none
deriving DecidableEq

/-- The download_artifact route handler as written in http_server.py: look the
session up in the registry, get_archive the file path directly from the
container and extract the first tar member, and return the raw bytes with the
guessed media type.  The tar extraction is collapsed into the container
file-map lookup; note that the handler consults neither SessionManager.read_file
nor the configured size limit. -/
def download_artifact (st : SMState) (session_id filename : String) :
    HttpResponse :=
  let path := "/mnt/data/" ++ filename
  match List.lookup session_id st.sessions with
  | none =>
      { status_code := 404,
        body := asciiBytes ("Session " ++ session_id ++ " not found") }
  | some cid =>
    let fs := (List.lookup cid st.engine_files).getD []
    match List.lookup path fs with
    | none =>
        { status_code := 404,
          body := asciiBytes ("File " ++ filename ++ " not found in session " ++ session_id) }
    | some file_bytes =>
        { status_code := 200,
          body := file_bytes,
          media_type := some ((guess_type filename).getD "application/octet-stream") }

/-! ## Concrete states used by the evaluations below -/

/-- A registry with one live idle session whose container holds a small file
under /mnt/data plus the system file /etc/passwd (contents root). -/
def exampleState : SMState :=
  { sessions := [("sess_a", "sandbox-sess_a")],
    last_accessed := [("sess_a", 0)],
    locks := [("sess_a", false)],
    engine_files := [("sandbox-sess_a",
      [("/mnt/data/hello.txt", [104, 105]),
       ("/etc/passwd", [114, 111, 111, 116])])],
    removed := [] }

/-- The same registry while an execute on sess_a is in flight: the session
mutex is held. -/
def heldLockState : SMState :=
  { exampleState with locks := [("sess_a", true)] }

/-- Configuration with an 8-byte artifact read limit, as in the repository
test test_http_413_for_oversized_artifact. -/
def cfgRead8 : SandboxConfig :=
  { defaultConfig with max_artifact_read_bytes := 8 }

/-- A session whose container holds a 27-byte file big.txt, larger than the
8-byte read limit of cfgRead8. -/
def bigFileState : SMState :=
  { exampleState with engine_files := [("sandbox-sess_a",
      [("/mnt/data/big.txt", List.replicate 27 97)])] }

/-! ## Claims -/

/-- C1: the claim fails on the code and the code contradicts its stated
intent.  _validate_path only checks that the basename of the path lands under
/mnt/data/ and read_file then passes the original, unreduced path to
get_archive.  Evaluated at path /etc/passwd on a live session: validation
passes, and the read succeeds returning the base64 of the bytes of
/etc/passwd — a path outside /mnt/data/ that is read out of the container,
contradicting the claim that every successful result is a file under
/mnt/data/. -/
theorem c1_read_outside_data_dir :
    _validate_path "/etc/passwd" = none ∧
    (read_file defaultConfig exampleState 5 "sess_a" "/etc/passwd").1 =
      Sum.inl { path := "/etc/passwd", filename := "passwd",
                mime_type := "application/octet-stream", size_bytes := 4,
                content_base64 := "cm9vdA==" } ∧
    b64Encode [114, 111, 111, 116] = "cm9vdA==" ∧
    strHasPre "/mnt/data/" "/etc/passwd" = false := by
  decide

/-- C2: the claim fails on the code and the code contradicts its own test
suite (test_http_413_for_oversized_artifact).  The download_artifact handler
in http_server.py does not delegate to SessionManager.read_file and consults
no size limit: with max_artifact_read_bytes = 8 and a 27-byte artifact it
returns status 200 with all 27 bytes, while read_file on the same state
returns artifact_too_large (which the specified mapping would turn into 413). -/
theorem c2_http_serves_oversized_artifact :
    (download_artifact bigFileState "sess_a" "big.txt").status_code = 200 ∧
    (download_artifact bigFileState "sess_a" "big.txt").body.length = 27 ∧
    27 > cfgRead8.max_artifact_read_bytes ∧
    (read_file cfgRead8 bigFileState 0 "sess_a" "/mnt/data/big.txt").1 =
      Sum.inr { error := "artifact_too_large",
                message := "big.txt is 0MB, exceeds 0MB limit.",
                size_bytes := some 27 } := by
  decide

/-- C3: the claim fails on the code and the code contradicts its own test
suite (test_close_session_busy_when_execution_in_flight).  close never
touches the session mutex: evaluated on a state whose mutex is held by an
in-flight execute, it still returns closed, drops the registry entry and
force-removes the container, instead of returning session_busy. -/
theorem c3_close_ignores_held_mutex :
    List.lookup "sess_a" heldLockState.locks = some true ∧
    (close heldLockState "sess_a").1 = Sum.inl { status := "closed" } ∧
    (close heldLockState "sess_a").2.sessions = [] ∧
    (close heldLockState "sess_a").2.removed = ["sandbox-sess_a"] := by
  decide

/-- C4: the claim fails on the code.  Because close never returns
session_busy, a reaper tick whose TTL has expired (for example a long run
with exec_timeout_s larger than the TTL) destroys the session and its
container even while the session mutex is held by an in-flight execute,
instead of leaving it in place for the next tick. -/
theorem c4_reaper_removes_busy_session :
    List.lookup "sess_a" heldLockState.locks = some true ∧
    (_expire_idle_sessions heldLockState 3601 1800).sessions = [] ∧
    (_expire_idle_sessions heldLockState 3601 1800).removed = ["sandbox-sess_a"] := by
  decide

/-- C7 counterexample: the claim asserts that an upload one decoded byte over
max_upload_bytes is rejected.  With max_upload_bytes = 3, the base64 encoding
of a 4-byte payload is the 8-character string AAAAAA== and the check accepts
it, because the padding slack of the bound int(3 * 4 / 3) + 4 = 8 admits it. -/
theorem c7_over_limit_upload_accepted :
    ([0, 0, 0, 0] : List Nat).length = 3 + 1 ∧
    b64Encode [0, 0, 0, 0] = "AAAAAA==" ∧
    validate_upload_size "AAAAAA=="
      { defaultConfig with max_upload_bytes := 3 } = none := by
  decide

/-- C7 amended: the size check compares the encoded length against
int(max_upload_bytes * 4 / 3) + 4.  A payload of exactly max_upload_bytes
decoded bytes (encoded length 4 * ceil(m / 3)) is accepted, as claimed — but
so is a payload of one decoded byte more: rejection with upload_too_large
starts only once the encoded length exceeds the bound. -/
theorem c7_upload_size_bound (m : Nat) (s : String) :
    (s.length = b64EncLen m →
      validate_upload_size s { defaultConfig with max_upload_bytes := m } = none) ∧
    (s.length = b64EncLen (m + 1) →
      validate_upload_size s { defaultConfig with max_upload_bytes := m } = none) ∧
    (s.length > m * 4 / 3 + 4 →
      validate_upload_size s { defaultConfig with max_upload_bytes := m } =
        some (upload_too_large_error m)) := by
  refine ⟨fun h => ?_, fun h => ?_, fun h => ?_⟩ <;>
    simp only [validate_upload_size, b64EncLen] at h ⊢
  · rw [if_neg]; omega
  · rw [if_neg]; omega
  · rw [if_pos h]

/-- C7 witness: the amended theorem applied at max_upload_bytes = 3, with the
4-character encoding of a 3-byte payload accepted, the 8-character encoding
of a 4-byte payload accepted, and a 9-character payload rejected. -/
theorem c7_upload_size_bound_witness :
    ("AAAA".length = b64EncLen 3 ∧
      validate_upload_size "AAAA" { defaultConfig with max_upload_bytes := 3 } = none) ∧
    ("AAAAAA==".length = b64EncLen (3 + 1) ∧
      validate_upload_size "AAAAAA==" { defaultConfig with max_upload_bytes := 3 } = none) ∧
    ("AAAAAAAAA".length > 3 * 4 / 3 + 4 ∧
      validate_upload_size "AAAAAAAAA" { defaultConfig with max_upload_bytes := 3 } =
        some (upload_too_large_error 3)) :=
  ⟨⟨by decide, (c7_upload_size_bound 3 "AAAA").1 (by decide)⟩,
   ⟨by decide, (c7_upload_size_bound 3 "AAAAAA==").2.1 (by decide)⟩,
   ⟨by decide, (c7_upload_size_bound 3 "AAAAAAAAA").2.2 (by decide)⟩⟩

/-- C10: download URLs.  When the HTTP surface is disabled the URL is always
None; when enabled, the hosts 0.0.0.0 and 127.0.0.1 are rewritten to
localhost and any other configured host is used verbatim; and every artifact
decorated by the execute diff or by list carries exactly the URL built by
_download_url for its filename. -/
theorem c10_download_url (config : SandboxConfig) (http_enabled : Bool)
    (sid fn : String) :
    (http_enabled = false → _download_url config http_enabled sid fn = none) ∧
    (http_enabled = true →
      config.http_host = "0.0.0.0" ∨ config.http_host = "127.0.0.1" →
      _download_url config http_enabled sid fn =
        some ("http://localhost:" ++ toString config.http_port ++
              "/files/" ++ sid ++ "/" ++ fn)) ∧
    (http_enabled = true →
      config.http_host ≠ "0.0.0.0" → config.http_host ≠ "127.0.0.1" →
      _download_url config http_enabled sid fn =
        some ("http://" ++ config.http_host ++ ":" ++ toString config.http_port ++
              "/files/" ++ sid ++ "/" ++ fn)) ∧
    (∀ before after a, a ∈ _diff_snapshots config http_enabled before after sid →
      a.download_url = _download_url config http_enabled sid a.filename) ∧
    (∀ st now snapshot res st2,
      list_files config http_enabled st now sid snapshot = (Sum.inl res, st2) →
      ∀ a ∈ res.artifacts,
        a.download_url = _download_url config http_enabled sid a.filename) := by
  refine ⟨fun h => ?_, fun h hh => ?_, fun h h0 h1 => ?_, ?_, ?_⟩
  · simp [_download_url, h]
  · rcases hh with hh | hh <;> simp [_download_url, h, hh]
  · simp [_download_url, h, h0, h1]
  · intro before after a ha
    rcases List.mem_filterMap.mp ha with ⟨p, _hp, hsome⟩
    by_cases hc : changedSince before p.1 p.2
    · rw [if_pos hc] at hsome
      cases hsome
      rfl
    · rw [if_neg hc] at hsome
      cases hsome
  · intro st now snapshot res st2 heq a ha
    unfold list_files at heq
    cases hl : List.lookup sid st.sessions <;> rw [hl] at heq
    · cases heq
    · obtain ⟨h1, -⟩ := Prod.mk.injEq .. ▸ heq
      cases h1
      rcases List.mem_map.mp ha with ⟨p, _hp, rfl⟩
      rfl

/-- C10 witness: the URL cases evaluated at concrete configurations — HTTP
disabled gives None, host 0.0.0.0 is rewritten to localhost, and
host example.com is used verbatim. -/
theorem c10_download_url_witness :
    _download_url { defaultConfig with http_host := "0.0.0.0" } false "s" "f.png" = none ∧
    _download_url { defaultConfig with http_host := "0.0.0.0" } true "s" "f.png" =
      some "http://localhost:8080/files/s/f.png" ∧
    _download_url { defaultConfig with http_host := "example.com" } true "s" "f.png" =
      some "http://example.com:8080/files/s/f.png" :=
  ⟨(c10_download_url { defaultConfig with http_host := "0.0.0.0" } false "s" "f.png").1 rfl,
   (c10_download_url { defaultConfig with http_host := "0.0.0.0" } true "s" "f.png").2.1
     rfl (Or.inl rfl),
   (c10_download_url { defaultConfig with http_host := "example.com" } true "s" "f.png").2.2.1
     rfl (by decide) (by decide)⟩

/-- C8 counterexample: the claim asserts the returned stream length stays
within max_output_bytes in bytes, including in the timed-out case.  With
max_output_bytes = 4 and exec_timeout_s = 3, a timed-out run whose stderr had
5 bytes returns a stderr of 4 + 29 = 33 bytes: the timeout note is appended
after truncation, so the returned stderr exceeds the limit. -/
theorem c8_timeout_note_exceeds_limit :
    (_execute_locked { defaultConfig with max_output_bytes := 4, exec_timeout_s := 3 }
        false "s" "r" [] [] ⟨124, some [104, 105], some [97, 98, 99, 100, 101]⟩ 10).stderr_truncated
      = true ∧
    (_execute_locked { defaultConfig with max_output_bytes := 4, exec_timeout_s := 3 }
        false "s" "r" [] [] ⟨124, some [104, 105], some [97, 98, 99, 100, 101]⟩ 10).stderr.length
      = 33 ∧
    33 > 4 := by
  decide

/-- C8 amended: each stream is truncated at max_output_bytes with the
corresponding flag — a stream of exactly the limit is returned unchanged with
the flag false, one byte over sets the flag and the returned stream is
exactly max_output_bytes long — except that in the timed-out case the timeout
note is appended to stderr after truncation, so the returned stderr is the
truncated stream plus the note and may exceed the limit by the note length. -/
theorem c8_truncation (config : SandboxConfig) (http_enabled : Bool)
    (sid run_id : String) (before after : Snapshot) (raw : ExecRaw)
    (duration_ms : Nat) :
    ((raw.stdout.getD []).length ≤ config.max_output_bytes →
      (_execute_locked config http_enabled sid run_id before after raw duration_ms).stdout_truncated = false ∧
      (_execute_locked config http_enabled sid run_id before after raw duration_ms).stdout =
        raw.stdout.getD []) ∧
    ((raw.stdout.getD []).length > config.max_output_bytes →
      (_execute_locked config http_enabled sid run_id before after raw duration_ms).stdout_truncated = true ∧
      (_execute_locked config http_enabled sid run_id before after raw duration_ms).stdout.length =
        config.max_output_bytes) ∧
    (raw.exit_code ≠ 124 → (raw.stderr.getD []).length ≤ config.max_output_bytes →
      (_execute_locked config http_enabled sid run_id before after raw duration_ms).stderr_truncated = false ∧
      (_execute_locked config http_enabled sid run_id before after raw duration_ms).stderr =
        raw.stderr.getD []) ∧
    (raw.exit_code ≠ 124 → (raw.stderr.getD []).length > config.max_output_bytes →
      (_execute_locked config http_enabled sid run_id before after raw duration_ms).stderr_truncated = true ∧
      (_execute_locked config http_enabled sid run_id before after raw duration_ms).stderr.length =
        config.max_output_bytes) ∧
    (raw.exit_code = 124 →
      (_execute_locked config http_enabled sid run_id before after raw duration_ms).stderr =
        (if (raw.stderr.getD []).length > config.max_output_bytes then
          (raw.stderr.getD []).take config.max_output_bytes
         else raw.stderr.getD []) ++ timeoutNote config.exec_timeout_s) := by
  refine ⟨fun h => ?_, fun h => ?_, fun ht h => ?_, fun ht h => ?_, fun ht => ?_⟩ <;>
    simp only [_execute_locked]
  · constructor
    · simp
      omega
    · rw [if_neg]
      simp
      omega
  · constructor
    · simp
      omega
    · rw [if_pos (by simp; omega)]
      simp
      omega
  · have h124 : (raw.exit_code == 124) = false := by
      simp [ht]
    constructor
    · simp
      omega
    · rw [h124]
      simp only [Bool.false_eq_true, if_false]
      rw [if_neg]
      simp
      omega
  · have h124 : (raw.exit_code == 124) = false := by
      simp [ht]
    constructor
    · simp
      omega
    · rw [h124]
      simp only [Bool.false_eq_true, if_false]
      rw [if_pos (by simp; omega)]
      simp
      omega
  · have h124 : (raw.exit_code == 124) = true := by
      simp [ht]
    rw [h124]
    simp only [if_true]
    by_cases hlen : (raw.stderr.getD []).length > config.max_output_bytes
    · rw [if_pos hlen, if_pos (by simp; omega)]
    · rw [if_neg hlen, if_neg (by simp; omega)]

/-- C8 witness: the amended theorem applied with max_output_bytes = 3 and
exec_timeout_s = 7 — a 3-byte stdout is returned unchanged with the flag
false, a 4-byte stderr is flagged and cut to 3 bytes, and a timed-out run
with a 3-byte stderr returns those bytes followed by the timeout note. -/
theorem c8_truncation_witness :
    ((_execute_locked { defaultConfig with max_output_bytes := 3, exec_timeout_s := 7 }
        false "s" "r" [] [] ⟨0, some [1, 2, 3], some [1, 2, 3, 4]⟩ 1).stdout_truncated = false ∧
     (_execute_locked { defaultConfig with max_output_bytes := 3, exec_timeout_s := 7 }
        false "s" "r" [] [] ⟨0, some [1, 2, 3], some [1, 2, 3, 4]⟩ 1).stdout = [1, 2, 3]) ∧
    ((_execute_locked { defaultConfig with max_output_bytes := 3, exec_timeout_s := 7 }
        false "s" "r" [] [] ⟨0, some [1, 2, 3], some [1, 2, 3, 4]⟩ 1).stderr_truncated = true ∧
     (_execute_locked { defaultConfig with max_output_bytes := 3, exec_timeout_s := 7 }
        false "s" "r" [] [] ⟨0, some [1, 2, 3], some [1, 2, 3, 4]⟩ 1).stderr.length = 3) ∧
    (_execute_locked { defaultConfig with max_output_bytes := 3, exec_timeout_s := 7 }
        false "s" "r" [] [] ⟨124, some [], some [9, 9, 9]⟩ 1).stderr =
      (if ([9, 9, 9] : List Nat).length > 3 then ([9, 9, 9] : List Nat).take 3 else [9, 9, 9]) ++
        timeoutNote 7 :=
  ⟨(c8_truncation { defaultConfig with max_output_bytes := 3, exec_timeout_s := 7 }
      false "s" "r" [] [] ⟨0, some [1, 2, 3], some [1, 2, 3, 4]⟩ 1).1 (by decide),
   (c8_truncation { defaultConfig with max_output_bytes := 3, exec_timeout_s := 7 }
      false "s" "r" [] [] ⟨0, some [1, 2, 3], some [1, 2, 3, 4]⟩ 1).2.2.2.1
      (by decide) (by decide),
   (c8_truncation { defaultConfig with max_output_bytes := 3, exec_timeout_s := 7 }
      false "s" "r" [] [] ⟨124, some [], some [9, 9, 9]⟩ 1).2.2.2.2 rfl⟩

/-- Looking up a key just written into an association map yields the value. -/
theorem lookup_assocSet_self {α : Type} (m : List (String × α)) (k : String) (v : α) :
    List.lookup k (assocSet m k v) = some v := by
  simp [assocSet, List.lookup]

/-- C9 counterexample: operations that return an error can still refresh
last-access.  On a session whose mutex is held, execute at time 7 is rejected
with session_busy yet leaves last-access at 7 (it was 0); a read of a missing
file at time 9 returns not_found yet leaves last-access at 9. -/
theorem c9_error_refreshes_last_access :
    (execute defaultConfig false heldLockState 7 (some "sess_a") "f" "r" [] []
        ⟨0, none, none⟩ 0).1 =
      Sum.inr { error := "session_busy",
                message := "Session sess_a is already executing code. Wait or use a different session." } ∧
    (execute defaultConfig false heldLockState 7 (some "sess_a") "f" "r" [] []
        ⟨0, none, none⟩ 0).2.1.last_accessed = [("sess_a", 7)] ∧
    List.lookup "sess_a" heldLockState.last_accessed = some 0 ∧
    (7 : Nat) ≠ 0 ∧
    (read_file defaultConfig exampleState 9 "sess_a" "/mnt/data/nope.txt").1 =
      Sum.inr { error := "not_found", message := "No artifact at /mnt/data/nope.txt" } ∧
    (read_file defaultConfig exampleState 9 "sess_a" "/mnt/data/nope.txt").2.last_accessed =
      [("sess_a", 9)] := by
  decide

/-- C9 amended: last-access is refreshed whenever an operation resolves the
session, regardless of the outcome — execute on an existing id refreshes it
to the current time even when rejected with session_busy, and read refreshes
it once the path validates even when the result is not_found or
artifact_too_large; errors raised before resolution (unknown session,
invalid_path) leave the state untouched.  Successful operations refresh it as
the claim states. -/
theorem c9_last_access_refresh (config : SandboxConfig) (http_enabled : Bool)
    (st : SMState) (now : Nat) (sid fresh_sid run_id : String)
    (before after : Snapshot) (raw : ExecRaw) (duration_ms : Nat) (path : String) :
    (sid ≠ "" → (List.lookup sid st.sessions).isSome = true →
      List.lookup sid (execute config http_enabled st now (some sid) fresh_sid run_id
        before after raw duration_ms).2.1.last_accessed = some now) ∧
    ((List.lookup sid st.sessions).isSome = true → _validate_path path = none →
      List.lookup sid (read_file config st now sid path).2.last_accessed = some now) ∧
    ((_validate_path path).isSome = true →
      (read_file config st now sid path).2 = st) := by
  refine ⟨fun hne hsome => ?_, fun hsome hv => ?_, fun hv => ?_⟩
  · rw [Option.isSome_iff_exists] at hsome
    obtain ⟨cid, hl⟩ := hsome
    have h1 : (sid == "") = false := by
      simp [hne]
    unfold execute get_or_create resolveSid
    simp only [h1, Bool.false_eq_true, if_false, hl]
    cases hlk : List.lookup sid st.locks with
    | none => simp [hlk, lookup_assocSet_self]
    | some b => cases b <;> simp [hlk, lookup_assocSet_self]
  · rw [Option.isSome_iff_exists] at hsome
    obtain ⟨cid, hl⟩ := hsome
    unfold read_file
    simp only [hl, hv]
    cases hfp : List.lookup path ((List.lookup cid st.engine_files).getD []) with
    | none => simp [hfp, lookup_assocSet_self]
    | some bytes =>
        by_cases hsz : bytes.length > config.max_artifact_read_bytes <;>
          simp [hfp, hsz, lookup_assocSet_self]
  · rw [Option.isSome_iff_exists] at hv
    obtain ⟨e, he⟩ := hv
    unfold read_file
    cases hl : List.lookup sid st.sessions <;> simp [hl, he]

/-- C9 witness: the amended theorem applied on the concrete states — the
session_busy execute leaves last-access at 7, the not_found read leaves it at
9, and an invalid_path read leaves the state untouched. -/
theorem c9_last_access_refresh_witness :
    List.lookup "sess_a" (execute defaultConfig false heldLockState 7 (some "sess_a")
      "f" "r" [] [] ⟨0, none, none⟩ 0).2.1.last_accessed = some 7 ∧
    List.lookup "sess_a" (read_file defaultConfig exampleState 9 "sess_a"
      "/mnt/data/nope.txt").2.last_accessed = some 9 ∧
    (read_file defaultConfig exampleState 9 "sess_a" "/").2 = exampleState :=
  ⟨(c9_last_access_refresh defaultConfig false heldLockState 7 "sess_a" "f" "r"
      [] [] ⟨0, none, none⟩ 0 "/mnt/data/nope.txt").1 (by decide) (by decide),
   (c9_last_access_refresh defaultConfig false exampleState 9 "sess_a" "f" "r"
      [] [] ⟨0, none, none⟩ 0 "/mnt/data/nope.txt").2.1 (by decide) (by decide),
   (c9_last_access_refresh defaultConfig false exampleState 9 "sess_a" "f" "r"
      [] [] ⟨0, none, none⟩ 0 "/").2.2 (by decide)⟩

/-- The exit code of an execute result, in terms of the raw engine exit. -/
theorem execute_locked_exit (config : SandboxConfig) (http_enabled : Bool)
    (sid run_id : String) (before after : Snapshot) (raw : ExecRaw) (dur : Nat) :
    (_execute_locked config http_enabled sid run_id before after raw dur).exit_code =
      if raw.exit_code == 124 then (-1 : Int) else raw.exit_code := rfl

/-- The artifacts of an execute result: the snapshot diff on normalized exit
code zero, empty otherwise. -/
theorem execute_locked_artifacts (config : SandboxConfig) (http_enabled : Bool)
    (sid run_id : String) (before after : Snapshot) (raw : ExecRaw) (dur : Nat) :
    (_execute_locked config http_enabled sid run_id before after raw dur).artifacts =
      if (if raw.exit_code == 124 then (-1 : Int) else raw.exit_code) == 0 then
        _diff_snapshots config http_enabled before after sid
      else [] := rfl

/-- A successful association-map lookup witnesses membership. -/
theorem lookup_mem {l : Snapshot} {k : String} {v : FileInfo}
    (h : List.lookup k l = some v) : (k, v) ∈ l := by
  induction l with
  | nil => simp [List.lookup] at h
  | cons p t ih =>
    obtain ⟨k1, v1⟩ := p
    by_cases hk : k = k1
    · subst hk
      simp [List.lookup] at h
      simp [h]
    · have hb : (k == k1) = false := by simp [hk]
      simp only [List.lookup, hb] at h
      exact List.mem_cons_of_mem _ (ih h)

/-- Membership determines the lookup when the keys are distinct. -/
theorem lookup_of_nodup_mem {l : Snapshot} {k : String} {v : FileInfo}
    (hnd : (l.map Prod.fst).Nodup) (hm : (k, v) ∈ l) : List.lookup k l = some v := by
  induction l with
  | nil => cases hm
  | cons p t ih =>
    obtain ⟨k1, v1⟩ := p
    rw [List.map_cons, List.nodup_cons] at hnd
    rcases List.mem_cons.mp hm with heq | hmem
    · obtain ⟨rfl, rfl⟩ := Prod.mk.injEq .. ▸ heq
      simp [List.lookup]
    · have hmm : k ∈ t.map Prod.fst := List.mem_map_of_mem Prod.fst hmem
      have hk : k ≠ k1 := by
        rintro rfl
        exact hnd.1 hmm
      have hb : (k == k1) = false := by simp [hk]
      simp only [List.lookup, hb]
      exact ih hnd.2 hmem

/-- Characterization of the diff membership by name, under distinct
after-snapshot keys: a name is reported iff its after-entry passes the
new-or-changed test. -/
theorem mem_diff_iff (config : SandboxConfig) (http_enabled : Bool)
    (before after : Snapshot) (sid name : String)
    (hnd : (after.map Prod.fst).Nodup) :
    name ∈ (_diff_snapshots config http_enabled before after sid).map ArtifactInfo.filename ↔
      ∃ info, List.lookup name after = some info ∧
        changedSince before name info = true := by
  constructor
  · intro h
    rcases List.mem_map.mp h with ⟨a, ha, rfl⟩
    rcases List.mem_filterMap.mp ha with ⟨p, hp, hsome⟩
    unfold _diff_snapshots at *
    by_cases hc : changedSince before p.1 p.2 = true
    · rw [if_pos hc] at hsome
      cases hsome
      exact ⟨p.2, lookup_of_nodup_mem hnd hp, hc⟩
    · rw [if_neg hc] at hsome
      cases hsome
  · rintro ⟨info, hlk, hc⟩
    refine List.mem_map.mpr
      ⟨artifactOf config http_enabled sid name info, ?_, rfl⟩
    exact List.mem_filterMap.mpr ⟨(name, info), lookup_mem hlk, by rw [if_pos hc]⟩

/-- Unfolding of the new-or-changed test: the name is absent from the before
snapshot or its mtime string differs. -/
theorem changedSince_iff (before : Snapshot) (name : String) (info : FileInfo) :
    changedSince before name info = true ↔
      (List.lookup name before = none ∨
       ∃ b, List.lookup name before = some b ∧ b.mtime ≠ info.mtime) := by
  unfold changedSince
  cases hl : List.lookup name before with
  | none => simp
  | some b => simp [bne_iff_ne]

/-- C5: artifact delta of a run.  When the normalized exit code is 0, a
filename appears among the artifacts iff it is present in the after-snapshot
and is absent from the before-snapshot or has a different mtime (deletions,
being absent from the after-snapshot, are never reported); for every non-zero
exit code, including the timeout normalization of 124 to -1, the artifact
list is empty. -/
theorem c5_artifact_delta (config : SandboxConfig) (http_enabled : Bool)
    (sid run_id : String) (before after : Snapshot) (raw : ExecRaw) (dur : Nat)
    (hnd : (after.map Prod.fst).Nodup) :
    ((_execute_locked config http_enabled sid run_id before after raw dur).exit_code = 0 →
      ∀ name,
        name ∈ (_execute_locked config http_enabled sid run_id before after raw dur).artifacts.map
          ArtifactInfo.filename ↔
        ∃ info, List.lookup name after = some info ∧
          (List.lookup name before = none ∨
           ∃ b, List.lookup name before = some b ∧ b.mtime ≠ info.mtime)) ∧
    ((_execute_locked config http_enabled sid run_id before after raw dur).exit_code ≠ 0 →
      (_execute_locked config http_enabled sid run_id before after raw dur).artifacts = []) := by
  constructor
  · intro hz name
    rw [execute_locked_exit] at hz
    rw [execute_locked_artifacts]
    by_cases h : raw.exit_code = 124
    · simp [h] at hz
    · have hb : (raw.exit_code == 124) = false := by simp [h]
      rw [hb] at hz ⊢
      simp only [Bool.false_eq_true, if_false] at hz ⊢
      have h0 : (raw.exit_code == 0) = true := by simp [hz]
      rw [h0]
      simp only [if_true]
      rw [mem_diff_iff config http_enabled before after sid name hnd]
      simp only [changedSince_iff]
  · intro hnz
    rw [execute_locked_exit] at hnz
    rw [execute_locked_artifacts]
    by_cases h : raw.exit_code = 124
    · have hb : (raw.exit_code == 124) = true := by simp [h]
      rw [hb]
      simp only [if_true]
      have hm1 : ((-1 : Int) == 0) = false := by decide
      rw [hm1]
      simp
    · have hb : (raw.exit_code == 124) = false := by simp [h]
      rw [hb] at hnz ⊢
      simp only [Bool.false_eq_true, if_false] at hnz ⊢
      have hz : (raw.exit_code == 0) = false := by simp [hnz]
      rw [hz]
      simp

/-- Snapshot before a run: one input file. -/
def snapBefore : Snapshot :=
  [("in.csv", { name := "in.csv", size := 8, mtime := "100.0" })]

/-- Snapshot after the run: the unchanged input file plus one new output. -/
def snapAfter : Snapshot :=
  [("in.csv", { name := "in.csv", size := 8, mtime := "100.0" }),
   ("out.txt", { name := "out.txt", size := 2, mtime := "200.0" })]

/-- C5 witness: for a run exiting 0, out.txt (new in the after-snapshot)
appears among the artifacts; for a timed-out run (raw exit 124, normalized to
-1) the artifact list is empty. -/
theorem c5_artifact_delta_witness :
    (snapAfter.map Prod.fst).Nodup ∧
    "out.txt" ∈ (_execute_locked defaultConfig false "s" "r" snapBefore snapAfter
      ⟨0, none, none⟩ 5).artifacts.map ArtifactInfo.filename ∧
    (_execute_locked defaultConfig false "s" "r" snapBefore snapAfter
      ⟨124, none, none⟩ 5).artifacts = [] :=
  ⟨by decide,
   ((c5_artifact_delta defaultConfig false "s" "r" snapBefore snapAfter
       ⟨0, none, none⟩ 5 (by decide)).1 rfl "out.txt").mpr
     ⟨{ name := "out.txt", size := 2, mtime := "200.0" }, by decide, Or.inl (by decide)⟩,
   (c5_artifact_delta defaultConfig false "s" "r" snapBefore snapAfter
       ⟨124, none, none⟩ 5 (by decide)).2 (by decide)⟩

/-- The session-id validator only ever produces invalid_session_id. -/
theorem validate_session_id_some {session_id : Option String} {e : ErrorResponse}
    (h : validate_session_id session_id = some e) : e.error = "invalid_session_id" := by
  unfold validate_session_id at h
  split at h
  · cases h
  · split at h
    · cases h
    · cases h
      rfl

/-- The upload-size validator only ever produces upload_too_large. -/
theorem validate_upload_size_some {s : String} {config : SandboxConfig} {e : ErrorResponse}
    (h : validate_upload_size s config = some e) : e.error = "upload_too_large" := by
  simp only [validate_upload_size] at h
  split at h
  · cases h
    rfl
  · cases h

/-- The filename validator only ever produces invalid_filename or
invalid_path. -/
theorem validate_filename_some {f : String} {e : ErrorResponse}
    (h : _validate_filename f = some e) :
    e.error = "invalid_filename" ∨ e.error = "invalid_path" := by
  unfold _validate_filename at h
  split at h
  · cases h
    exact Or.inl rfl
  · split at h
    · cases h
      exact Or.inr rfl
    · cases h

/-- A get_or_create error is always max_sessions, produced before any engine
call and without touching the state. -/
theorem get_or_create_inr {config : SandboxConfig} {st : SMState} {now : Nat}
    {session_id : Option String} {fresh_sid : String} {e : ErrorResponse}
    {st1 : SMState} {calls : List EngineCall}
    (h : get_or_create config st now session_id fresh_sid = (Sum.inr e, st1, calls)) :
    e.error = "max_sessions" ∧ st1 = st ∧ calls = [] := by
  simp only [get_or_create] at h
  cases hl : List.lookup (resolveSid session_id fresh_sid) st.sessions with
  | some cid =>
      rw [hl] at h
      cases h
  | none =>
      rw [hl] at h
      by_cases hm : st.sessions.length ≥ config.max_sessions
      · rw [if_pos hm] at h
        cases h
        exact ⟨rfl, rfl, rfl⟩
      · rw [if_neg hm] at h
        cases h

/-- A successful get_or_create issues at most the container creation call. -/
theorem get_or_create_inl_calls {config : SandboxConfig} {st : SMState} {now : Nat}
    {session_id : Option String} {fresh_sid : String} {p : String × String}
    {st1 : SMState} {calls : List EngineCall}
    (h : get_or_create config st now session_id fresh_sid = (Sum.inl p, st1, calls)) :
    ∀ c f, EngineCall.putArchive c f ∉ calls ∧ EngineCall.probeExists c f ∉ calls := by
  simp only [get_or_create] at h
  cases hl : List.lookup (resolveSid session_id fresh_sid) st.sessions with
  | some cid =>
      rw [hl] at h
      cases h
      intro c f
      exact ⟨List.not_mem_nil _, List.not_mem_nil _⟩
  | none =>
      rw [hl] at h
      by_cases hm : st.sessions.length ≥ config.max_sessions
      · rw [if_pos hm] at h
        cases h
      · rw [if_neg hm] at h
        cases h
        intro c f
        constructor <;> simp

/-- A fresh broker state: no sessions, no containers. -/
def freshState : SMState := ⟨[], [], [], [], []⟩

/-- C6 counterexample: an upload whose content_base64 is not valid base64
(here the improperly padded "abc") on a fresh session returns invalid_content
only after the engine was called: the container was created and the existence
probe executed, and the session remains registered — contradicting the claim
that invalid_content is detected before any engine call. -/
theorem c6_invalid_content_after_engine_calls :
    (sandbox_upload_file defaultConfig freshState 0 none "sess_new" "data.txt"
        "abc" false).1 =
      Sum.inr { error := "invalid_content",
                message := "content_base64 is not valid base64" } ∧
    (sandbox_upload_file defaultConfig freshState 0 none "sess_new" "data.txt"
        "abc" false).2.2 =
      [EngineCall.createContainer "sess_new",
       EngineCall.probeExists "sandbox-sess_new" "data.txt"] ∧
    (sandbox_upload_file defaultConfig freshState 0 none "sess_new" "data.txt"
        "abc" false).2.1.sessions = [("sess_new", "sandbox-sess_new")] := by
  decide

/-- C6 amended: invalid_session_id, invalid_filename, invalid_path and
upload_too_large are detected before any engine call, with the state
untouched; invalid_content, however, is detected only after session
resolution and the existence probe — an invalid-base64 upload may create a
session and probe file existence, though no archive is ever injected. -/
theorem c6_input_error_ordering (config : SandboxConfig) (st : SMState) (now : Nat)
    (session_id : Option String) (fresh_sid filename content_base64 : String)
    (overwrite : Bool) :
    (∀ e, (sandbox_upload_file config st now session_id fresh_sid filename
        content_base64 overwrite).1 = Sum.inr e →
      (e.error = "invalid_session_id" ∨ e.error = "invalid_filename" ∨
       e.error = "invalid_path" ∨ e.error = "upload_too_large") →
      (sandbox_upload_file config st now session_id fresh_sid filename
        content_base64 overwrite).2.2 = [] ∧
      (sandbox_upload_file config st now session_id fresh_sid filename
        content_base64 overwrite).2.1 = st) ∧
    (∀ e, (sandbox_upload_file config st now session_id fresh_sid filename
        content_base64 overwrite).1 = Sum.inr e →
      e.error = "invalid_content" →
      ∀ c f, EngineCall.putArchive c f ∉
        (sandbox_upload_file config st now session_id fresh_sid filename
          content_base64 overwrite).2.2) := by
  refine ⟨fun e he hd => ?_, fun e he hce c f => ?_⟩ <;>
    unfold sandbox_upload_file at he ⊢
  · cases hsv : validate_session_id session_id with
    | some err => simp only [hsv] at he ⊢; constructor <;> trivial
    | none =>
      simp only [hsv] at he ⊢
      cases hsu : validate_upload_size content_base64 config with
      | some err => simp only [hsu] at he ⊢; constructor <;> trivial
      | none =>
        simp only [hsu] at he ⊢
        unfold upload at he ⊢
        cases hvf : _validate_filename filename with
        | some err => simp only [hvf] at he ⊢; constructor <;> trivial
        | none =>
          simp only [hvf] at he ⊢
          rcases hg : get_or_create config st now session_id fresh_sid with ⟨res, st1, calls⟩
          cases res with
          | inr err =>
              obtain ⟨herr, hst, hcalls⟩ := get_or_create_inr hg
              simp only [hg] at he ⊢
              exact ⟨hcalls, hst⟩
          | inl pr =>
              obtain ⟨sid, cid⟩ := pr
              simp only [hg] at he ⊢
              split at he
              · -- file_exists branch
                cases he
                rcases hd with h | h | h | h <;> simp at h
              · split at he
                · -- invalid_content branch
                  cases he
                  rcases hd with h | h | h | h <;> simp at h
                · -- success branch: inl ≠ inr
                  cases he
  · cases hsv : validate_session_id session_id with
    | some err =>
        simp only [hsv] at he ⊢
        simp
    | none =>
      simp only [hsv] at he ⊢
      cases hsu : validate_upload_size content_base64 config with
      | some err =>
          simp only [hsu] at he ⊢
          simp
      | none =>
        simp only [hsu] at he ⊢
        unfold upload at he ⊢
        cases hvf : _validate_filename filename with
        | some err =>
            simp only [hvf] at he ⊢
            simp
        | none =>
          simp only [hvf] at he ⊢
          rcases hg : get_or_create config st now session_id fresh_sid with ⟨res, st1, calls⟩
          cases res with
          | inr err =>
              obtain ⟨herr, hst, hcalls⟩ := get_or_create_inr hg
              simp only [hg] at he ⊢
              subst hcalls
              simp
          | inl pr =>
              obtain ⟨sid, cid⟩ := pr
              obtain ⟨hput, hprobe⟩ := get_or_create_inl_calls hg c f
              simp only [hg] at he ⊢
              by_cases h1 : (!overwrite &&
                  (List.lookup ("/mnt/data/" ++ filename)
                    ((List.lookup cid st1.engine_files).getD [])).isSome) = true
              · rw [if_pos h1] at he ⊢
                by_cases ho : overwrite = true
                · rw [if_pos ho]
                  exact hput
                · rw [if_neg ho]
                  simp [List.mem_append, hput]
              · rw [if_neg h1] at he ⊢
                by_cases h2 : (!b64Valid content_base64) = true
                · rw [if_pos h2] at he ⊢
                  by_cases ho : overwrite = true
                  · rw [if_pos ho]
                    exact hput
                  · rw [if_neg ho]
                    simp [List.mem_append, hput]
                · rw [if_neg h2] at he ⊢
                  cases he

/-- C6 witness: the amended theorem applied at concrete inputs — an upload
with the invalid filename (bad name) returns with no engine calls and the
state untouched, and the invalid-base64 upload from the counterexample never
injects an archive. -/
theorem c6_input_error_ordering_witness :
    (sandbox_upload_file defaultConfig freshState 0 none "sess_new" "bad name"
        "QQ==" false).2.2 = [] ∧
    (sandbox_upload_file defaultConfig freshState 0 none "sess_new" "bad name"
        "QQ==" false).2.1 = freshState ∧
    EngineCall.putArchive "sandbox-sess_new" "data.txt" ∉
      (sandbox_upload_file defaultConfig freshState 0 none "sess_new" "data.txt"
        "abc" false).2.2 :=
  ⟨((c6_input_error_ordering defaultConfig freshState 0 none "sess_new" "bad name"
      "QQ==" false).1 _ rfl (Or.inr (Or.inl rfl))).1,
   ((c6_input_error_ordering defaultConfig freshState 0 none "sess_new" "bad name"
      "QQ==" false).1 _ rfl (Or.inr (Or.inl rfl))).2,
   (c6_input_error_ordering defaultConfig freshState 0 none "sess_new" "data.txt"
      "abc" false).2 _ rfl rfl "sandbox-sess_new" "data.txt"⟩

end CodeSandbox
